import Mathlib

/-!
Shallow embedding of `src/scripts/ensue-cli.py` (the Ensue CLI script) and
proofs about its Configuration Resolver (`get_config`), result formatter
(`format_result`), CLI driver (`main_async`) and session wrapper
(`create_session` / `call_tool`).

Modelling conventions:
* Environment variables are `Option String` (absent vs present value);
  Python truthiness of a string (`if not token`) is `isFalsy`.
* The filesystem is a record of the two candidate key files, each
  `Option String` (present with contents vs absent).
* `json.loads` and the remote MCP call are external-library effects; the
  driver is parametrised by their outcomes.
* `sys.exit(1)` after printing, and uncaught Python exceptions such as
  `NameError`, are both modelled as the error side of `Except`.
-/

namespace EnsueCli

/-- The process environment as far as `get_config` reads it:
`ENSUE_URL`, `ENSUE_API_KEY`, `ENSUE_TOKEN`.  `none` means the variable is
unset; `some s` means it is set to the string `s` (possibly empty). -/
structure Env where
  ensue_url : Option String
  ensue_api_key : Option String
  ensue_token : Option String
deriving Repr, DecidableEq

/-- The slice of the filesystem `get_config` looks at: the contents of the
plugin key file `<repo>/.claude-plugin/.ensue-key` and of the skill key
file `<repo>/.ensue-key`, or `none` when the file does not exist. -/
structure FS where
  plugin_key_file : Option String
  skill_key_file : Option String
deriving Repr, DecidableEq

/-- Python truthiness on an optional string: `None` and `""` are falsy. -/
def isFalsy : Option String → Bool
  | none => true
  | some s => s = ""

/-- The ASCII whitespace characters recognised by Python `str.strip()`
(space, tab, newline, vertical tab, form feed, carriage return; the
Unicode-only space characters never occur in the strings considered
here). -/
def pyIsSpace (c : Char) : Bool :=
  c = ' ' || c = '\t' || c = '\n' || c = '\x0b' || c = '\x0c' || c = '\r'

/-- Python `str.strip()`: drop leading and trailing whitespace characters. -/
def pyStrip (s : String) : String :=
  String.mk ((((s.data.dropWhile pyIsSpace).reverse).dropWhile pyIsSpace).reverse)

/-- Python `a or b` on two optional strings, as in
`os.environ.get("ENSUE_API_KEY") or os.environ.get("ENSUE_TOKEN")`:
the left operand wins unless it is falsy. -/
def pyOr (a b : Option String) : Option String :=
  if isFalsy a then b else a

/-- `DEFAULT_URL` from the script (line 136). -/
def DEFAULT_URL : String := "https://api.ensue-network.ai/"

/-- String form of `repo_root / ".claude-plugin" / ".ensue-key"`. -/
def pluginKeyPath (repoRoot : String) : String :=
  repoRoot ++ "/.claude-plugin/.ensue-key"

/-- String form of `repo_root / ".ensue-key"`. -/
def skillKeyPath (repoRoot : String) : String :=
  repoRoot ++ "/.ensue-key"

/-- How `get_config` can fail to return a pair:
`exited msg` models printing the JSON object with the single key `error`
holding `msg` to stderr followed by `sys.exit(1)`;
`raised e` models an uncaught Python exception with message `e`
(the `NameError` on line 153). -/
inductive GcFail where
  | exited (msg : String)
  | raised (e : String)
deriving Repr, DecidableEq

/-- The message of the `NameError` raised by line 153, which reads the
undefined name `skil_key_file` instead of `skill_key_file`. -/
def nameErrorMsg : String := "name \x27skil_key_file\x27 is not defined"

/-- Line 141 of `get_config`: `os.environ.get("ENSUE_URL", DEFAULT_URL)`.
Note the default applies only when the variable is unset; an empty value
is returned as-is by `os.environ.get` with a default. -/
def urlOf (env : Env) : String :=
  match env.ensue_url with
  | some u => u
  | none => DEFAULT_URL

/-- Lines 144-153 of `get_config`: the `if not token:` file-fallback block.
`token0` is the value obtained from the environment.  When it is falsy:
if the plugin key file exists its stripped contents are assigned to
`token`; then, if the skill key file exists, line 153 evaluates the
undefined name `skil_key_file` and a `NameError` is raised. -/
def tokenFallback (token0 : Option String) (fs : FS) :
    Except GcFail (Option String) :=
  if isFalsy token0 then
    let t1 : Option String :=
      match fs.plugin_key_file with
      | some contents => some (pyStrip contents)
      | none => token0
    if (fs.skill_key_file).isSome then
      Except.error (GcFail.raised nameErrorMsg)
    else
      Except.ok t1
  else
    Except.ok token0

/-- The error message of lines 155-157 with the two path f-string holes
filled in. -/
def noTokenMsg (repoRoot : String) : String :=
  "ENSUE_API_KEY or ENSUE_TOKEN env var not set, and "
    ++ pluginKeyPath repoRoot ++ " and " ++ skillKeyPath repoRoot

/-- Lines 155-159 of `get_config`: if the token is still falsy, print the
error object and `sys.exit(1)`; otherwise return the `(url, token)`
pair. -/
def finishConfig (repoRoot url : String) (token1 : Option String) :
    Except GcFail (String × String) :=
  if isFalsy token1 then
    Except.error (GcFail.exited (noTokenMsg repoRoot))
  else
    Except.ok (url, token1.getD "")

/-- Embedding of `get_config` (lines 139-159): URL with default, then
`ENSUE_API_KEY or ENSUE_TOKEN`, then the file fallback block, then the
final no-token check. -/
def get_config (repoRoot : String) (env : Env) (fs : FS) :
    Except GcFail (String × String) :=
  let url : String := urlOf env
  let token0 : Option String := pyOr env.ensue_api_key env.ensue_token
  match tokenFallback token0 fs with
  | Except.error f => Except.error f
  | Except.ok token1 => finishConfig repoRoot url token1

/-- A minimal JSON value type for the parsed tool arguments. -/
inductive JsonVal where
  | null
  | bool (b : Bool)
  | num (n : Int)
  | str (s : String)
  | arr (xs : List JsonVal)
  | obj (kvs : List (String × JsonVal))
deriving Repr

/-- One content item of an MCP result object: `text` is `some t` when the
item bears a `text` attribute with value `t`, `none` when
`hasattr(item, "text")` is false. -/
structure ContentItem where
  text : Option String
deriving Repr, DecidableEq

/-- An MCP call result object as `format_result` inspects it:
`content` is `some items` when `hasattr(result, "content")` holds, and
`dumped` is the string `json.dumps(result, default=str)` produced by the
external json library for this object. -/
structure McpResult where
  content : Option (List ContentItem)
  dumped : String
deriving Repr, DecidableEq

/-- The `for item in result.content` loop of `format_result`: the text of
the first item bearing a `text` attribute, if any. -/
def firstText : List ContentItem → Option String
  | [] => none
  | item :: rest =>
    match item.text with
    | some t => some t
    | none => firstText rest

/-- Embedding of `format_result` (lines 162-171): when the result has a
`content` attribute, return the text of the first text-bearing content
item; otherwise (or when no item bears text) fall through to
`json.dumps(result, default=str)`. -/
def format_result (result : McpResult) : String :=
  match result.content with
  | some items => (firstText items).getD result.dumped
  | none => result.dumped

/-- A JSON object printed to standard error, kept structured: each
constructor records exactly the keys of the Python dict that is
`json.dumps`-ed at the corresponding print site. -/
inductive ErrObj where
  | usage (error : String) (exampleText : String)
  | invalidJson (error : String) (received : String)
  | plain (error : String)
  | remote (error : String) (command : String) (arguments : JsonVal)

/-- Whether a stderr object is the malformed-JSON-arguments error object
(the `ArgumentParseError` report of lines 190-193). -/
def ErrObj.isInvalidJson : ErrObj → Bool
  | ErrObj.invalidJson _ _ => true
  | _ => false

/-- The observable outcome of one run of `main_async`, together with an
execution trace: the strings handed to `json.loads`, the number of
`get_config` calls, and the `(name, arguments)` pairs handed to
`call_tool`. -/
structure Outcome where
  stdout : List String
  stderr : List ErrObj
  exitCode : Nat
  parseCalls : List String
  configCalls : Nat
  remoteCalls : List (String × JsonVal)

/-- The usage error object printed when no command argument is given
(lines 177-180). -/
def usageErr : ErrObj :=
  ErrObj.usage "Usage: ensue-cli.py <command> [json_args]"
    "./ensue-cli.py list_keys \x27\x7b\"limit\":5\x7d\x27"

/-- Embedding of `main_async` (lines 174-216).  `argv` is the full
`sys.argv` including the script name; `parse` is the external
`json.loads` (error side carries the exception message `str(e)`);
`remote` is the outcome of the one remote `call_tool` invocation (error
side carries `str(e)` of whatever the session machinery raised). -/
def main_async (argv : List String) (parse : String → Except String JsonVal)
    (repoRoot : String) (env : Env) (fs : FS)
    (remote : Except String McpResult) : Outcome :=
  match argv with
  | [] =>
    { stdout := [], stderr := [usageErr], exitCode := 1,
      parseCalls := [], configCalls := 0, remoteCalls := [] }
  | [_] =>
    { stdout := [], stderr := [usageErr], exitCode := 1,
      parseCalls := [], configCalls := 0, remoteCalls := [] }
  | _ :: command :: rest =>
    let args_str : String := rest.headD "\x7b\x7d"
    match parse args_str with
    | Except.error e =>
      { stdout := [],
        stderr := [ErrObj.invalidJson ("Invalid JSON arguments: " ++ e) args_str],
        exitCode := 1, parseCalls := [args_str], configCalls := 0,
        remoteCalls := [] }
    | Except.ok arguments =>
      match get_config repoRoot env fs with
      | Except.error (GcFail.exited msg) =>
        { stdout := [], stderr := [ErrObj.plain msg], exitCode := 1,
          parseCalls := [args_str], configCalls := 1, remoteCalls := [] }
      | Except.error (GcFail.raised e) =>
        { stdout := [],
          stderr := [ErrObj.plain ("Configuration error: " ++ e)],
          exitCode := 1, parseCalls := [args_str], configCalls := 1,
          remoteCalls := [] }
      | Except.ok (_url, _token) =>
        match remote with
        | Except.error e =>
          { stdout := [],
            stderr := [ErrObj.remote e command arguments],
            exitCode := 1, parseCalls := [args_str], configCalls := 1,
            remoteCalls := [(command, arguments)] }
        | Except.ok result =>
          { stdout := [format_result result], stderr := [], exitCode := 0,
            parseCalls := [args_str], configCalls := 1,
            remoteCalls := [(command, arguments)] }

/-- Open/close counters for the two nested resources of `create_session`:
the streamable HTTP transport and the MCP `ClientSession` layer. -/
structure SessTrace where
  transportOpens : Nat
  transportCloses : Nat
  sessionOpens : Nat
  sessionCloses : Nat
deriving Repr, DecidableEq

/-- A session-level computation: threads the resource trace and may fail
with a propagated exception message. -/
def SessM (α : Type) : Type := SessTrace → Except String α × SessTrace

/-- Semantics of `async with streamablehttp_client(...)` (line 105):
enter the transport, run the body, and leave the transport on both the
normal-return path and the exception path. -/
def withTransport {α : Type} (body : SessM α) : SessM α := fun t =>
  let t1 := { t with transportOpens := t.transportOpens + 1 }
  let p := body t1
  (p.1, { p.2 with transportCloses := p.2.transportCloses + 1 })

/-- Semantics of `async with ClientSession(...)` (line 106): enter the
protocol session layer, run the body, and leave it on both the
normal-return path and the exception path. -/
def withSession {α : Type} (body : SessM α) : SessM α := fun t =>
  let t1 := { t with sessionOpens := t.sessionOpens + 1 }
  let p := body t1
  (p.1, { p.2 with sessionCloses := p.2.sessionCloses + 1 })

/-- Embedding of `create_session` (lines 101-108) applied to a body: the
nested `async with` blocks around the `await session.initialize()`
handshake followed by the body.  `handshake` is the handshake outcome; if
it raises, the exception propagates and the body never runs. -/
def create_session {α : Type} (handshake : Except String Unit)
    (body : SessM α) : SessM α :=
  withTransport (withSession (fun t =>
    match handshake with
    | Except.error e => (Except.error e, t)
    | Except.ok _ => body t))

/-- Embedding of `call_tool` (lines 125-129): one `create_session` scope
whose body performs the single `session.call_tool` invocation, whose
outcome is `callResult`. -/
def call_tool (handshake : Except String Unit)
    (callResult : Except String McpResult) : SessM McpResult :=
  create_session handshake (fun t => (callResult, t))

/-- One string contains another as a contiguous substring. -/
def containsStr (s pat : String) : Prop :=
  ∃ a b, s = a ++ pat ++ b

/-- A concrete stand-in for `json.loads` used to instantiate witnesses:
accepts exactly the empty-object text and rejects everything else with
the message the Python json library gives for garbage input. -/
def parseStub (s : String) : Except String JsonVal :=
  if s = "\x7b\x7d" then Except.ok (JsonVal.obj [])
  else Except.error "Expecting value: line 1 column 1 (char 0)"

end EnsueCli

namespace EnsueCli

theorem isFalsy_false_iff (t : Option String) :
    isFalsy t = false ↔ ∃ s, t = some s ∧ s ≠ "" := by
  cases t with
  | none => simp [isFalsy]
  | some s => simp [isFalsy]

theorem finishConfig_ok_ne_empty (repoRoot url u token : String)
    (token1 : Option String)
    (h : finishConfig repoRoot url token1 = Except.ok (u, token)) :
    token ≠ "" := by
  unfold finishConfig at h
  split at h
  · exact absurd h (by simp)
  · rename_i hfalsy
    rw [Bool.not_eq_true] at hfalsy
    obtain ⟨s, hs, hne⟩ := (isFalsy_false_iff token1).mp hfalsy
    subst hs
    simp only [Option.getD_some, Except.ok.injEq, Prod.mk.injEq] at h
    rw [← h.2]
    exact hne

theorem get_config_ok_token_ne_empty (repoRoot : String) (env : Env) (fs : FS)
    (url token : String)
    (h : get_config repoRoot env fs = Except.ok (url, token)) : token ≠ "" := by
  simp only [get_config] at h
  cases hfb : tokenFallback (pyOr env.ensue_api_key env.ensue_token) fs with
  | error f => simp [hfb] at h
  | ok token1 =>
    simp only [hfb] at h
    exact finishConfig_ok_ne_empty repoRoot (urlOf env) url token token1 h

theorem firstText_of_find? (items : List ContentItem) (i : ContentItem)
    (t : String) (hfind : items.find? (fun x => x.text.isSome) = some i)
    (ht : i.text = some t) : firstText items = some t := by
  induction items with
  | nil => simp [List.find?] at hfind
  | cons hd tl ih =>
    rw [List.find?_cons] at hfind
    by_cases hhd : hd.text.isSome
    · simp only [hhd, cond_true, Option.some.injEq] at hfind
      subst hfind
      obtain ⟨u, hu⟩ := Option.isSome_iff_exists.mp hhd
      rw [hu] at ht
      simp only [Option.some.injEq] at ht
      subst ht
      simp [firstText, hu]
    · simp only [Bool.not_eq_true] at hhd
      simp only [hhd, cond_false] at hfind
      have hnone : hd.text = none := Option.not_isSome_iff_eq_none.mp (by simp [hhd])
      simp [firstText, hnone, ih hfind]

theorem firstText_of_all_none (items : List ContentItem)
    (h : ∀ x ∈ items, x.text = none) : firstText items = none := by
  induction items with
  | nil => rfl
  | cons hd tl ih =>
    have hhd := h hd (by simp)
    simp [firstText, hhd, ih (fun x hx => h x (by simp [hx]))]

/-- C1: with no token in the environment and a token file present only at
the second fallback path (the skill key file, the plugin key file being
absent), the claim says `get_config` returns the file's trimmed contents
and the run proceeds to the remote call.  On the code this is false:
line 153 reads the undefined name `skil_key_file`, so `get_config` raises
a `NameError`, and the driver reports a Configuration error and exits 1
without calling the remote service. -/
theorem c1_skill_key_file_only_raises_name_error :
    get_config "/repo" ⟨none, none, none⟩ ⟨none, some " tok\n"⟩ =
      Except.error (GcFail.raised nameErrorMsg)
  ∧ main_async ["ensue-cli.py", "list_keys"] parseStub "/repo"
      ⟨none, none, none⟩ ⟨none, some " tok\n"⟩
      (Except.ok ⟨none, "dump"⟩) =
      { stdout := [],
        stderr := [ErrObj.plain ("Configuration error: " ++ nameErrorMsg)],
        exitCode := 1, parseCalls := ["\x7b\x7d"], configCalls := 1,
        remoteCalls := [] } :=
  ⟨rfl, rfl⟩

/-- C2: with token files present at both candidate fallback paths and no
environment token, the claim says `get_config` reads both files and
returns the trimmed contents of the second, the later read overwriting
the earlier one.  On the code this is false: after line 151 assigns the
plugin-file token, line 153 reads the undefined name `skil_key_file` and
raises a `NameError`, so `get_config` never returns a pair at all. -/
theorem c2_both_key_files_raise_name_error :
    get_config "/repo" ⟨none, none, none⟩ ⟨some " plug\n", some " skill\n"⟩ =
      Except.error (GcFail.raised nameErrorMsg)
  ∧ ∀ p, get_config "/repo" ⟨none, none, none⟩
      ⟨some " plug\n", some " skill\n"⟩ ≠ Except.ok p := by
  refine ⟨rfl, ?_⟩
  intro p h
  have h2 : (Except.error (GcFail.raised nameErrorMsg) :
      Except GcFail (String × String)) = Except.ok p := h
  exact Except.noConfusion h2

/-- C4: whenever `ENSUE_API_KEY` is set to a non-empty value `v`,
`get_config` returns `v` as the token, whatever `ENSUE_TOKEN` and the
filesystem hold: the priority order `ENSUE_API_KEY` before `ENSUE_TOKEN`
holds. -/
theorem c4_api_key_priority (repoRoot : String) (env : Env) (fs : FS)
    (v : String) (hset : env.ensue_api_key = some v) (hne : v ≠ "") :
    get_config repoRoot env fs = Except.ok (urlOf env, v) := by
  have hfalsy : isFalsy (some v) = false := by simp [isFalsy, hne]
  simp [get_config, pyOr, tokenFallback, finishConfig, hset, hfalsy]

/-- Witness for C4 at `ENSUE_API_KEY=abc`, `ENSUE_TOKEN=zzz`: the token is
`abc`. -/
theorem c4_api_key_priority_witness :
    get_config "/repo" ⟨none, some "abc", some "zzz"⟩ ⟨none, none⟩ =
      Except.ok (DEFAULT_URL, "abc") :=
  c4_api_key_priority "/repo" ⟨none, some "abc", some "zzz"⟩ ⟨none, none⟩
    "abc" rfl (by decide)

/-- C9: for any handshake outcome and any tool-call outcome, one run of
`call_tool` opens the transport and the protocol session layer exactly
once each and closes each exactly once — also on the paths where the
handshake or `session.call_tool` raises — and the outcome (result or
propagated exception) is passed through unchanged. -/
theorem c9_session_closed_exactly_once (handshake : Except String Unit)
    (callResult : Except String McpResult) (t : SessTrace) :
    (call_tool handshake callResult t).2 =
      { transportOpens := t.transportOpens + 1,
        transportCloses := t.transportCloses + 1,
        sessionOpens := t.sessionOpens + 1,
        sessionCloses := t.sessionCloses + 1 }
  ∧ (call_tool handshake callResult t).1 =
      (match handshake with
        | Except.error e => Except.error e
        | Except.ok _ => callResult) := by
  cases t
  cases handshake <;> cases callResult <;> exact ⟨rfl, rfl⟩

/-- C10: an `ENSUE_API_KEY` set to the empty string is indistinguishable
from an unset `ENSUE_API_KEY`: `get_config` behaves identically, falling
back to `ENSUE_TOKEN` and then to the key files. -/
theorem c10_empty_api_key_treated_as_absent (repoRoot : String)
    (u tok : Option String) (fs : FS) :
    get_config repoRoot ⟨u, some "", tok⟩ fs =
      get_config repoRoot ⟨u, none, tok⟩ fs := by
  simp [get_config, pyOr, isFalsy, urlOf]

/-- C3: when the argument string parses as JSON, the driver emits no
invalid-JSON error object on any path; when it is malformed, the driver
emits exactly the invalid-JSON error object echoing the original
argument text, exits with code 1, and never reaches configuration
resolution or the remote call. -/
theorem c3_json_argument_parsing (prog command : String) (rest : List String)
    (parse : String → Except String JsonVal) (repoRoot : String) (env : Env)
    (fs : FS) (remote : Except String McpResult) :
    (∀ v, parse (rest.headD "\x7b\x7d") = Except.ok v →
        ∀ obj ∈ (main_async (prog :: command :: rest) parse repoRoot env fs
          remote).stderr, obj.isInvalidJson = false)
  ∧ (∀ e, parse (rest.headD "\x7b\x7d") = Except.error e →
        main_async (prog :: command :: rest) parse repoRoot env fs remote =
          { stdout := [],
            stderr := [ErrObj.invalidJson ("Invalid JSON arguments: " ++ e)
              (rest.headD "\x7b\x7d")],
            exitCode := 1, parseCalls := [rest.headD "\x7b\x7d"],
            configCalls := 0, remoteCalls := [] }) := by
  constructor
  · intro v hv obj hobj
    simp only [main_async, hv] at hobj
    cases hgc : get_config repoRoot env fs with
    | error f =>
      rw [hgc] at hobj
      cases f with
      | exited msg =>
        simp only [List.mem_singleton] at hobj
        subst hobj
        rfl
      | raised e =>
        simp only [List.mem_singleton] at hobj
        subst hobj
        rfl
    | ok p =>
      rw [hgc] at hobj
      obtain ⟨u, t⟩ := p
      cases remote with
      | error e =>
        simp only [List.mem_singleton] at hobj
        subst hobj
        rfl
      | ok res => simp at hobj
  · intro e he
    simp only [main_async, he]

/-- Witness for C3 on the malformed argument text `not json`: the driver
echoes it in the error object, exits 1 and performs no remote call. -/
theorem c3_json_argument_parsing_witness :
    parseStub "not json" =
      Except.error "Expecting value: line 1 column 1 (char 0)"
  ∧ main_async ["ensue-cli.py", "list_keys", "not json"] parseStub "/repo"
      ⟨none, some "abc", none⟩ ⟨none, none⟩ (Except.ok ⟨none, "dump"⟩) =
      { stdout := [],
        stderr := [ErrObj.invalidJson
          ("Invalid JSON arguments: " ++
            "Expecting value: line 1 column 1 (char 0)") "not json"],
        exitCode := 1, parseCalls := ["not json"], configCalls := 0,
        remoteCalls := [] } :=
  ⟨rfl,
    (c3_json_argument_parsing "ensue-cli.py" "list_keys" ["not json"]
      parseStub "/repo" ⟨none, some "abc", none⟩ ⟨none, none⟩
      (Except.ok ⟨none, "dump"⟩)).2
      "Expecting value: line 1 column 1 (char 0)" rfl⟩

/-- C6: with no positional argument the driver prints the usage error
object and exits 1 without resolving configuration or calling the remote
service (the outcome is the same whatever the environment, filesystem and
remote oracle are); with the second positional argument omitted, the text
handed to the JSON parser is exactly the two-character empty-object
text. -/
theorem c6_usage_and_default_arguments (prog command : String)
    (parse : String → Except String JsonVal) (repoRoot : String) (env : Env)
    (fs : FS) (remote : Except String McpResult) :
    main_async [] parse repoRoot env fs remote =
      { stdout := [], stderr := [usageErr], exitCode := 1,
        parseCalls := [], configCalls := 0, remoteCalls := [] }
  ∧ main_async [prog] parse repoRoot env fs remote =
      { stdout := [], stderr := [usageErr], exitCode := 1,
        parseCalls := [], configCalls := 0, remoteCalls := [] }
  ∧ (main_async [prog, command] parse repoRoot env fs remote).parseCalls =
      ["\x7b\x7d"] := by
  refine ⟨rfl, rfl, ?_⟩
  simp only [main_async]
  cases parse (List.headD [] "\x7b\x7d") with
  | error e => rfl
  | ok v =>
    cases get_config repoRoot env fs with
    | error f => cases f <;> rfl
    | ok p =>
      obtain ⟨u, t⟩ := p
      cases remote <;> rfl

/-- C7: when the result object has a `content` attribute whose sequence
contains a text-bearing item, `format_result` returns the text of the
first such item verbatim; when there is no `content` attribute, or no
item bears a `text` attribute, it returns the JSON serialization of the
whole result (with non-serializable values coerced to strings by
`default=str`). -/
theorem c7_format_result_first_text_or_dump (r : McpResult) :
    (∀ items i t, r.content = some items →
        items.find? (fun x => x.text.isSome) = some i → i.text = some t →
        format_result r = t)
  ∧ (∀ items, r.content = some items → (∀ x ∈ items, x.text = none) →
        format_result r = r.dumped)
  ∧ (r.content = none → format_result r = r.dumped) := by
  refine ⟨?_, ?_, ?_⟩
  · intro items i t hc hfind ht
    simp [format_result, hc, firstText_of_find? items i t hfind ht]
  · intro items hc hall
    simp [format_result, hc, firstText_of_all_none items hall]
  · intro hc
    simp [format_result, hc]

/-- Witness for C7: a two-item content list yields the first text
verbatim; a list with no text-bearing item and a result without content
both fall back to the serialized form. -/
theorem c7_format_result_witness :
    format_result ⟨some [⟨none⟩, ⟨some "hello"⟩], "dump"⟩ = "hello"
  ∧ format_result ⟨some [⟨none⟩], "dump"⟩ = "dump"
  ∧ format_result ⟨none, "dump"⟩ = "dump" :=
  ⟨(c7_format_result_first_text_or_dump ⟨some [⟨none⟩, ⟨some "hello"⟩],
      "dump"⟩).1 [⟨none⟩, ⟨some "hello"⟩] ⟨some "hello"⟩ "hello" rfl rfl rfl,
    (c7_format_result_first_text_or_dump ⟨some [⟨none⟩], "dump"⟩).2.1
      [⟨none⟩] rfl (by intro x hx; simp at hx; subst hx; rfl),
    (c7_format_result_first_text_or_dump ⟨none, "dump"⟩).2.2 rfl⟩

theorem containsStr_infix (s pat : String) (h : containsStr s pat) :
    List.IsInfix pat.data s.data := by
  obtain ⟨a, b, hab⟩ := h
  exact ⟨a.data, b.data, by rw [hab]; simp [String.data_append]⟩

/-- C5 counterexample: a run where no token is obtainable — environment
empty, plugin key file absent, skill key file present but holding only
whitespace — on which the claim fails: the line-153 `NameError` fires, so
the process prints the `Configuration error` object, whose message does
not contain the string `ENSUE_API_KEY`, rather than the claimed
`ENSUE_API_KEY` error object. -/
theorem c5_no_token_counterexample :
    get_config "/repo" ⟨none, none, none⟩ ⟨none, some " \n"⟩ =
      Except.error (GcFail.raised nameErrorMsg)
  ∧ main_async ["ensue-cli.py", "list_keys"] parseStub "/repo"
      ⟨none, none, none⟩ ⟨none, some " \n"⟩ (Except.ok ⟨none, "dump"⟩) =
      { stdout := [],
        stderr := [ErrObj.plain ("Configuration error: " ++ nameErrorMsg)],
        exitCode := 1, parseCalls := ["\x7b\x7d"], configCalls := 1,
        remoteCalls := [] }
  ∧ ¬ containsStr ("Configuration error: " ++ nameErrorMsg)
      "ENSUE_API_KEY" := by
  refine ⟨rfl, rfl, fun h => ?_⟩
  have hinf := containsStr_infix _ _ h
  exact absurd hinf (by decide)

/-- C5 (amended): when no token is obtainable and the skill key file is
absent — both environment variables falsy, the plugin key file absent or
holding only whitespace — `get_config` exits with the error object whose
message contains the string `ENSUE_API_KEY`, and a driver run whose
arguments parse prints exactly that object and exits 1 without any remote
call (when the skill key file exists, the line-153 `NameError` yields a
`Configuration error` object instead); and unconditionally, on every run
that does reach the remote call, `get_config` succeeded with a non-empty
token. -/
theorem c5_no_token_error_and_nonempty_invariant (prog command : String)
    (rest : List String) (parse : String → Except String JsonVal)
    (repoRoot : String) (env : Env) (fs : FS)
    (remote : Except String McpResult) :
    (isFalsy env.ensue_api_key = true → isFalsy env.ensue_token = true →
      ((fs.plugin_key_file).map pyStrip).getD "" = "" →
      fs.skill_key_file = none →
      get_config repoRoot env fs =
          Except.error (GcFail.exited (noTokenMsg repoRoot))
        ∧ containsStr (noTokenMsg repoRoot) "ENSUE_API_KEY"
        ∧ ∀ v, parse (rest.headD "\x7b\x7d") = Except.ok v →
            main_async (prog :: command :: rest) parse repoRoot env fs
              remote =
              { stdout := [], stderr := [ErrObj.plain (noTokenMsg repoRoot)],
                exitCode := 1, parseCalls := [rest.headD "\x7b\x7d"],
                configCalls := 1, remoteCalls := [] })
  ∧ ((main_async (prog :: command :: rest) parse repoRoot env fs
        remote).remoteCalls ≠ [] →
      ∃ url token, get_config repoRoot env fs = Except.ok (url, token) ∧
        token ≠ "") := by
  constructor
  · intro ha hb hp hs
    have htok0 : isFalsy (pyOr env.ensue_api_key env.ensue_token) = true := by
      simp [pyOr, ha, hb]
    have hgc : get_config repoRoot env fs =
        Except.error (GcFail.exited (noTokenMsg repoRoot)) := by
      cases hpf : fs.plugin_key_file with
      | none => simp [get_config, tokenFallback, finishConfig, htok0, hpf, hs]
      | some c =>
        have hc : pyStrip c = "" := by simpa [hpf] using hp
        have h0 : isFalsy (some "") = true := rfl
        simp [get_config, tokenFallback, finishConfig, htok0, hpf, hs, hc, h0]
    refine ⟨hgc, ?_, ?_⟩
    · refine ⟨"", " or ENSUE_TOKEN env var not set, and "
        ++ pluginKeyPath repoRoot ++ " and " ++ skillKeyPath repoRoot, ?_⟩
      have h1 : ("ENSUE_API_KEY or ENSUE_TOKEN env var not set, and " :
          String) = "" ++ "ENSUE_API_KEY"
            ++ " or ENSUE_TOKEN env var not set, and " := by decide
      simp only [noTokenMsg, h1, String.append_assoc]
    · intro v hv
      simp only [main_async, hv, hgc]
  · intro hne
    cases hp : parse (rest.headD "\x7b\x7d") with
    | error e =>
      exact absurd (by simp only [main_async, hp]) hne
    | ok v =>
      cases hgc : get_config repoRoot env fs with
      | error f =>
        exact absurd (by cases f <;> simp only [main_async, hp, hgc]) hne
      | ok p =>
        obtain ⟨u, t⟩ := p
        exact ⟨u, t, rfl, get_config_ok_token_ne_empty repoRoot env fs u t hgc⟩

/-- Witness for C5: with everything unset and both files absent,
`get_config` exits with the message naming `ENSUE_API_KEY`, and the
message contains that string. -/
theorem c5_no_token_witness :
    get_config "/repo" ⟨none, none, none⟩ ⟨none, none⟩ =
      Except.error (GcFail.exited (noTokenMsg "/repo"))
  ∧ containsStr (noTokenMsg "/repo") "ENSUE_API_KEY" := by
  obtain ⟨h1, h2, h3⟩ :=
    (c5_no_token_error_and_nonempty_invariant "ensue-cli.py" "list_keys" []
      parseStub "/repo" ⟨none, none, none⟩ ⟨none, none⟩
      (Except.ok ⟨none, "dump"⟩)).1 rfl rfl rfl rfl
  exact ⟨h1, h2⟩

/-- C8: past argument parsing, every failure is caught at the top level:
a configuration `sys.exit` reprints as the narrow one-key error object, a
configuration exception as the narrow `Configuration error` object, and a
remote failure as the `error`/`command`/`arguments` object, all with exit
code 1 and with the remote call attempted at most once (no retry); on
success the formatted result is printed to standard output and the exit
code is 0. -/
theorem c8_top_level_error_handling (prog command : String)
    (rest : List String) (parse : String → Except String JsonVal)
    (repoRoot : String) (env : Env) (fs : FS)
    (remote : Except String McpResult) (v : JsonVal)
    (hv : parse (rest.headD "\x7b\x7d") = Except.ok v) :
    (∀ msg, get_config repoRoot env fs =
          Except.error (GcFail.exited msg) →
        main_async (prog :: command :: rest) parse repoRoot env fs remote =
          { stdout := [], stderr := [ErrObj.plain msg], exitCode := 1,
            parseCalls := [rest.headD "\x7b\x7d"], configCalls := 1,
            remoteCalls := [] })
  ∧ (∀ e, get_config repoRoot env fs =
          Except.error (GcFail.raised e) →
        main_async (prog :: command :: rest) parse repoRoot env fs remote =
          { stdout := [],
            stderr := [ErrObj.plain ("Configuration error: " ++ e)],
            exitCode := 1, parseCalls := [rest.headD "\x7b\x7d"],
            configCalls := 1, remoteCalls := [] })
  ∧ (∀ cfg e, get_config repoRoot env fs = Except.ok cfg →
        remote = Except.error e →
        main_async (prog :: command :: rest) parse repoRoot env fs remote =
          { stdout := [], stderr := [ErrObj.remote e command v],
            exitCode := 1, parseCalls := [rest.headD "\x7b\x7d"],
            configCalls := 1, remoteCalls := [(command, v)] })
  ∧ (∀ cfg res, get_config repoRoot env fs = Except.ok cfg →
        remote = Except.ok res →
        main_async (prog :: command :: rest) parse repoRoot env fs remote =
          { stdout := [format_result res], stderr := [], exitCode := 0,
            parseCalls := [rest.headD "\x7b\x7d"], configCalls := 1,
            remoteCalls := [(command, v)] }) := by
  refine ⟨?_, ?_, ?_, ?_⟩
  · intro msg hgc
    simp only [main_async, hv, hgc]
  · intro e hgc
    simp only [main_async, hv, hgc]
  · intro cfg e hgc hr
    obtain ⟨u, t⟩ := cfg
    simp only [main_async, hv, hgc, hr]
  · intro cfg res hgc hr
    obtain ⟨u, t⟩ := cfg
    simp only [main_async, hv, hgc, hr]

/-- Witness for C8 on the success path: with a token in the environment
and a remote result carrying a text content item, the driver prints that
text and exits 0 after exactly one remote call. -/
theorem c8_top_level_error_handling_witness :
    main_async ["ensue-cli.py", "list_keys"] parseStub "/repo"
      ⟨none, some "abc", none⟩ ⟨none, none⟩
      (Except.ok ⟨some [⟨some "out"⟩], "dump"⟩) =
      { stdout := ["out"], stderr := [], exitCode := 0,
        parseCalls := ["\x7b\x7d"], configCalls := 1,
        remoteCalls := [("list_keys", JsonVal.obj [])] } :=
  (c8_top_level_error_handling "ensue-cli.py" "list_keys" [] parseStub
    "/repo" ⟨none, some "abc", none⟩ ⟨none, none⟩
    (Except.ok ⟨some [⟨some "out"⟩], "dump"⟩) (JsonVal.obj []) rfl).2.2.2
    (DEFAULT_URL, "abc") ⟨some [⟨some "out"⟩], "dump"⟩ rfl rfl

end EnsueCli
